import Mathlib

/-!
Shallow embedding of `src/server.py` (k8s-log-forwarder), a minimal HTTP
log sink.  Bytes are modelled as natural numbers, the request body stream
as a list of bytes, and the log file `received_logs.txt` as a list of
bytes.  `Handler.do_POST` is modelled as a pure function from the request
and the current file contents to either the response sent together with
the new file contents, or an uncaught Python exception together with the
unchanged file contents.
-/

namespace LogForwarder

/-- A byte, modelled as a natural number. -/
abbrev Byte := Nat

/-- The newline byte, the contents of the Python literal `b"\n"`. -/
def NL : Byte := 10

/-- An incoming HTTP POST request as seen by `Handler.do_POST`: `path` is
the raw request target (`self.path`), `contentLength` the raw value of the
`Content-Length` header (`none` when the header is absent), and `body` the
bytes available for reading on `self.rfile`. -/
structure Request where
  path : String
  contentLength : Option String
  body : List Byte
deriving DecidableEq

/-- An HTTP response produced by the handler: a status code and the
response body bytes (the handler never writes a response body). -/
structure Response where
  status : Nat
  body : List Byte
deriving DecidableEq

/-- An uncaught Python exception escaping `do_POST`: `valueError` from
`int()` on a non-integer string, `ioError` from opening or writing the
log file. -/
inductive HandlerError where
  | valueError
  | ioError
deriving DecidableEq

/-- Drop ASCII space characters from both ends of a character list,
modelling the whitespace stripping performed by Python `int` on a string
argument. -/
def stripSpaces (cs : List Char) : List Char :=
  ((cs.dropWhile (fun c => c == ' ')).reverse.dropWhile
    (fun c => c == ' ')).reverse

/-- The numeric value of a list of decimal digit characters. -/
def digitsVal (cs : List Char) : Nat :=
  cs.foldl (fun a c => 10 * a + (c.toNat - 48)) 0

/-- Parse a nonempty all-digit character list as a natural number;
`none` otherwise. -/
def decDigits? (cs : List Char) : Option Nat :=
  if !cs.isEmpty && cs.all Char.isDigit then some (digitsVal cs) else none

/-- Python `int(s)` applied to a string: optional surrounding whitespace,
an optional sign, then decimal digits.  `none` models an uncaught
`ValueError`. -/
def pyInt? (s : String) : Option Int :=
  match stripSpaces s.data with
  | '-' :: rest => (decDigits? rest).map (fun n => -(n : Int))
  | '+' :: rest => (decDigits? rest).map (fun n => (n : Int))
  | cs => (decDigits? cs).map (fun n => (n : Int))

/-- `int(self.headers.get('Content-Length', 0))`: an absent header gives
the integer `0` (the default is already an `int`); a present header value
is parsed as a decimal integer, raising `ValueError` when it is not
one (`none`). -/
def contentLength? : Option String → Option Int
  | none => some 0
  | some v => pyInt? v

/-- `self.rfile.read(n)` on a stream currently holding `s`: a negative
count reads the whole stream, otherwise at most `n` bytes are taken from
the front of the stream. -/
def pyRead (n : Int) (s : List Byte) : List Byte :=
  if n < 0 then s else s.take n.toNat

/-- The bytes one handled POST appends to the log file: the body read,
followed by one newline byte unless the data already ends in one
(`if not data.endswith(b"\n"): f.write(b"\n")`). -/
def record (data : List Byte) : List Byte :=
  data ++ (if data.getLast? = some NL then [] else [NL])

/-- `Handler.do_POST`.  `endpoint` is the configured path the handler
class closed over, `writeOk` tells whether opening and writing
`received_logs.txt` succeeds on this request, and `file` is the current
contents of the log file.  The result is either the response sent
together with the new file contents, or the uncaught exception together
with the unchanged file contents. -/
def doPOST (endpoint : String) (writeOk : Bool) (req : Request)
    (file : List Byte) :
    Except (HandlerError × List Byte) (Response × List Byte) :=
  if req.path ≠ endpoint then
    .ok (⟨404, []⟩, file)
  else
    match contentLength? req.contentLength with
    | none => .error (.valueError, file)
    | some n =>
        let data := pyRead n req.body
        if writeOk then
          .ok (⟨204, []⟩, file ++ record data)
        else
          .error (.ioError, file)

/-- The contents of the log file after `do_POST` runs, whether the
handler returned normally or raised. -/
def fileAfter (endpoint : String) (writeOk : Bool) (req : Request)
    (file : List Byte) : List Byte :=
  match doPOST endpoint writeOk req file with
  | .ok (_, f) => f
  | .error (_, f) => f

/-- The contents of the log file after a list of requests is handled one
at a time, in arrival order (the server handles one request at a time). -/
def postSeq (endpoint : String) (reqs : List Request) (file : List Byte) :
    List Byte :=
  reqs.foldl (fun f r => fileAfter endpoint true r f) file

/-- The startup configuration assembled by `__main__` from the parsed
command-line flags. -/
structure Config where
  host : String
  port : Int
  endpoint : String
deriving DecidableEq

/-- The value supplied for a command-line flag among the given
`(flag, value)` pairs, if present. -/
def lookupFlag (args : List (String × String)) (flag : String) :
    Option String :=
  (args.find? (fun p => p.1 == flag)).map Prod.snd

/-- The `argparse` setup of `__main__`: `--host` defaults to `"0.0.0.0"`,
`--port` is parsed with `int` and defaults to the integer `9000`,
`--endpoint` defaults to `"/logs"`; a non-integer `--port` value is a
parse error. -/
def parseArgs (args : List (String × String)) : Option Config :=
  match (match lookupFlag args "--port" with
         | none => some (9000 : Int)
         | some v => pyInt? v) with
  | none => none
  | some p =>
      some { host := (lookupFlag args "--host").getD "0.0.0.0",
             port := p,
             endpoint := (lookupFlag args "--endpoint").getD "/logs" }

/-! ### Computation lemmas for `doPOST` -/

/-- A POST whose raw target differs from the configured endpoint is
answered 404 with no file access. -/
theorem doPOST_of_ne {endpoint : String} {req : Request} (writeOk : Bool)
    (file : List Byte) (h : req.path ≠ endpoint) :
    doPOST endpoint writeOk req file = .ok (⟨404, []⟩, file) := by
  unfold doPOST
  rw [if_pos h]

/-- On a matching path with a parseable Content-Length and a successful
file write, the handler responds 204 and appends the read data, newline
terminated. -/
theorem doPOST_of_some {endpoint : String} {req : Request}
    {n : Int} (file : List Byte) (hpath : req.path = endpoint)
    (hlen : contentLength? req.contentLength = some n) :
    doPOST endpoint true req file =
      .ok (⟨204, []⟩, file ++ record (pyRead n req.body)) := by
  unfold doPOST
  rw [if_neg (by simp [hpath]), hlen]
  rfl

/-- On a matching path with an unparseable Content-Length the handler
raises `ValueError` and the file is untouched. -/
theorem doPOST_of_badLen {endpoint : String} {req : Request}
    (writeOk : Bool) (file : List Byte) (hpath : req.path = endpoint)
    (hlen : contentLength? req.contentLength = none) :
    doPOST endpoint writeOk req file = .error (.valueError, file) := by
  unfold doPOST
  rw [if_neg (by simp [hpath]), hlen]

/-- On a matching path with a parseable Content-Length but a failing file
write, the handler raises `IOError` uncaught. -/
theorem doPOST_of_writeFail {endpoint : String} {req : Request}
    {n : Int} (file : List Byte) (hpath : req.path = endpoint)
    (hlen : contentLength? req.contentLength = some n) :
    doPOST endpoint false req file = .error (.ioError, file) := by
  unfold doPOST
  rw [if_neg (by simp [hpath]), hlen]
  rfl

/-- Reading a nonnegative count takes that many bytes from the front. -/
theorem pyRead_natCast (n : Nat) (s : List Byte) :
    pyRead (n : Int) s = s.take n := by
  unfold pyRead
  rw [if_neg (by exact Int.not_lt.mpr (Int.natCast_nonneg n))]
  simp

/-- The file contents after a successful matching POST. -/
theorem fileAfter_of_some {endpoint : String} {req : Request} {n : Int}
    (file : List Byte) (hpath : req.path = endpoint)
    (hlen : contentLength? req.contentLength = some n) :
    fileAfter endpoint true req file = file ++ record (pyRead n req.body) := by
  unfold fileAfter
  rw [doPOST_of_some file hpath hlen]

/-! ### Claims -/

/-- C1: for every byte sequence B POSTed to the configured endpoint, the
log file's new contents are the old contents followed by B, followed by
exactly one newline byte if B did not already end with a newline and by
nothing otherwise; no other bytes of B are altered. -/
theorem c1_post_appends_body_newline_terminated (endpoint : String)
    (req : Request) (file B : List Byte) (hpath : req.path = endpoint)
    (hbody : req.body = B)
    (hlen : contentLength? req.contentLength = some (B.length : Int)) :
    doPOST endpoint true req file =
      .ok (⟨204, []⟩,
        file ++ (B ++ (if B.getLast? = some NL then [] else [NL]))) := by
  rw [doPOST_of_some file hpath hlen, hbody, pyRead_natCast, List.take_length]
  rfl

/-- C1 witness: POSTing the body `hello` to `/logs` appends
`hello` plus a newline after the existing file contents. -/
theorem c1_witness :
    doPOST "/logs" true ⟨"/logs", some "5", [104, 101, 108, 108, 111]⟩
        [55, NL] =
      .ok (⟨204, []⟩, [55, NL] ++ ([104, 101, 108, 108, 111] ++
        (if ([104, 101, 108, 108, 111] : List Byte).getLast? = some NL
         then [] else [NL]))) :=
  c1_post_appends_body_newline_terminated "/logs"
    ⟨"/logs", some "5", [104, 101, 108, 108, 111]⟩ [55, NL]
    [104, 101, 108, 108, 111] rfl rfl (by decide)

/-- C2: a POST to any path other than the configured endpoint is answered
with status 404 and an empty response body, and the log file is unchanged
byte for byte. -/
theorem c2_mismatch_404_no_write (endpoint : String) (writeOk : Bool)
    (req : Request) (file : List Byte) (h : req.path ≠ endpoint) :
    doPOST endpoint writeOk req file = .ok (⟨404, []⟩, file) :=
  doPOST_of_ne writeOk file h

/-- C2 witness: POSTing to `/other` with endpoint `/logs` gives 404 and
leaves the file as it was. -/
theorem c2_witness :
    doPOST "/logs" true ⟨"/other", some "1", [120]⟩ [1, 2] =
      .ok (⟨404, []⟩, [1, 2]) :=
  c2_mismatch_404_no_write "/logs" true ⟨"/other", some "1", [120]⟩ [1, 2]
    (by decide)

/-- C3: appends are cumulative and order-preserving — after any sequence
of matching POSTs handled one at a time, the log file holds its initial
contents followed by the newline-terminated records in arrival order. -/
theorem c3_sequential_appends (endpoint : String) (reqs : List Request)
    (file : List Byte)
    (h : ∀ r ∈ reqs, r.path = endpoint ∧
      contentLength? r.contentLength = some (r.body.length : Int)) :
    postSeq endpoint reqs file =
      file ++ (reqs.map (fun r => record r.body)).flatten := by
  induction reqs generalizing file with
  | nil => simp [postSeq]
  | cons r rs ih =>
      obtain ⟨hp, hl⟩ := h r (List.mem_cons_self r rs)
      have hstep : fileAfter endpoint true r file = file ++ record r.body := by
        rw [fileAfter_of_some file hp hl, pyRead_natCast, List.take_length]
      have hrest := ih (file ++ record r.body)
        (fun x hx => h x (List.mem_cons_of_mem r hx))
      calc postSeq endpoint (r :: rs) file
          = postSeq endpoint rs (fileAfter endpoint true r file) := rfl
        _ = postSeq endpoint rs (file ++ record r.body) := by rw [hstep]
        _ = file ++ record r.body ++
              (rs.map (fun x => record x.body)).flatten := hrest
        _ = file ++ ((r :: rs).map (fun x => record x.body)).flatten := by
              simp

/-- C3 witness: two sequential POSTs append their two records in order. -/
theorem c3_witness :
    postSeq "/logs"
        [⟨"/logs", some "1", [104]⟩, ⟨"/logs", some "2", [10, 10]⟩] [55] =
      [55] ++ (([⟨"/logs", some "1", [104]⟩,
        ⟨"/logs", some "2", [10, 10]⟩] : List Request).map
          (fun r => record r.body)).flatten :=
  c3_sequential_appends "/logs"
    [⟨"/logs", some "1", [104]⟩, ⟨"/logs", some "2", [10, 10]⟩] [55]
    (by decide)

/-- C4 counterexample: a POST to the endpoint whose Content-Length header
is `abc` makes `int()` raise, so the handler sends no 204 response —
refuting "status 204 regardless of the Content-Length value". -/
theorem c4_counterexample :
    doPOST "/logs" true ⟨"/logs", some "abc", [104]⟩ [] =
      .error (.valueError, []) := rfl

/-- C4 (amended): for every POST to the configured endpoint whose
Content-Length header is absent or parses as a decimal integer, the
response has status 204 and carries no response body. -/
theorem c4_amended_204_no_body (endpoint : String) (req : Request)
    (file : List Byte) (n : Int) (hpath : req.path = endpoint)
    (hlen : contentLength? req.contentLength = some n) :
    doPOST endpoint true req file =
      .ok (⟨204, []⟩, file ++ record (pyRead n req.body)) :=
  doPOST_of_some file hpath hlen

/-- C4 witness: `Content-Length: 3` with a four-byte stream still gets a
204 with no response body. -/
theorem c4_witness :
    doPOST "/logs" true ⟨"/logs", some "3", [97, 98, 99, 100]⟩ [7] =
      .ok (⟨204, []⟩, [7] ++ record (pyRead 3 [97, 98, 99, 100])) :=
  c4_amended_204_no_body "/logs" ⟨"/logs", some "3", [97, 98, 99, 100]⟩ [7] 3
    rfl (by decide)

/-- C5: the handler reads exactly Content-Length bytes of the body — an
absent header is treated as length 0, a parsed length `n` reads the first
`n` stream bytes (exactly `n` of them when the stream is long enough),
and a POST with `Content-Length: 0` and empty body gets a 204 while the
file gains exactly one newline byte. -/
theorem c5_reads_content_length_bytes (endpoint : String) (req : Request)
    (file : List Byte) (n : Nat) (hpath : req.path = endpoint) :
    contentLength? none = some 0 ∧
    (contentLength? req.contentLength = some (n : Int) →
      doPOST endpoint true req file =
        .ok (⟨204, []⟩, file ++ record (req.body.take n)) ∧
      (n ≤ req.body.length → (req.body.take n).length = n)) ∧
    (req.contentLength = some "0" → req.body = [] →
      doPOST endpoint true req file = .ok (⟨204, []⟩, file ++ [NL])) := by
  refine ⟨rfl, fun hlen => ⟨?_, fun hle => ?_⟩, fun hcl hb => ?_⟩
  · rw [doPOST_of_some file hpath hlen, pyRead_natCast]
  · rw [List.length_take]
    exact Nat.min_eq_left hle
  · have hlen0 : contentLength? req.contentLength = some ((0 : Nat) : Int) := by
      rw [hcl]; rfl
    rw [doPOST_of_some file hpath hlen0, hb]
    rfl

/-- C5 witness: with `Content-Length: 2` and a three-byte stream the first
two bytes are read and appended. -/
theorem c5_witness :
    contentLength? none = some 0 ∧
    (contentLength? (some "2") = some ((2 : Nat) : Int) →
      doPOST "/logs" true ⟨"/logs", some "2", [1, 2, 3]⟩ [9] =
        .ok (⟨204, []⟩, [9] ++ record (([1, 2, 3] : List Byte).take 2)) ∧
      (2 ≤ ([1, 2, 3] : List Byte).length →
        (([1, 2, 3] : List Byte).take 2).length = 2)) ∧
    ((some "2" : Option String) = some "0" → ([1, 2, 3] : List Byte) = [] →
      doPOST "/logs" true ⟨"/logs", some "2", [1, 2, 3]⟩ [9] =
        .ok (⟨204, []⟩, [9] ++ [NL])) :=
  c5_reads_content_length_bytes "/logs" ⟨"/logs", some "2", [1, 2, 3]⟩ [9] 2 rfl

/-- C6: the log file is append-only — in every outcome of `do_POST`
(path mismatch, success, ValueError on the header, write failure) the
old file contents are an initial segment of the new contents; starting
from an absent file is the `file = []` instance. -/
theorem c6_file_append_only (endpoint : String) (writeOk : Bool)
    (req : Request) (file : List Byte) :
    ∃ tail, fileAfter endpoint writeOk req file = file ++ tail := by
  by_cases hp : req.path = endpoint
  · cases hcl : contentLength? req.contentLength with
    | none =>
        refine ⟨[], ?_⟩
        unfold fileAfter
        rw [doPOST_of_badLen writeOk file hp hcl]
        simp
    | some n =>
        cases writeOk with
        | false =>
            refine ⟨[], ?_⟩
            unfold fileAfter
            rw [doPOST_of_writeFail file hp hcl]
            simp
        | true =>
            exact ⟨record (pyRead n req.body), fileAfter_of_some file hp hcl⟩
  · refine ⟨[], ?_⟩
    unfold fileAfter
    rw [doPOST_of_ne writeOk file hp]
    simp

/-- C7: errors during the file write are not caught — when opening or
writing the log file fails on a matching POST, the exception propagates
out of `do_POST`, no 204 is sent, and nothing is swallowed. -/
theorem c7_write_error_propagates (endpoint : String) (req : Request)
    (file : List Byte) (n : Int) (hpath : req.path = endpoint)
    (hlen : contentLength? req.contentLength = some n) :
    doPOST endpoint false req file = .error (.ioError, file) :=
  doPOST_of_writeFail file hpath hlen

/-- C7 witness: a failing write on a matching POST escapes as an IO
error. -/
theorem c7_witness :
    doPOST "/logs" false ⟨"/logs", some "1", [104]⟩ [3] =
      .error (.ioError, [3]) :=
  c7_write_error_propagates "/logs" ⟨"/logs", some "1", [104]⟩ [3] 1 rfl
    (by decide)

/-- C8: every omitted CLI flag takes its documented default — host
`0.0.0.0`, port `9000`, endpoint `/logs`. -/
theorem c8_cli_defaults (args : List (String × String))
    (hh : lookupFlag args "--host" = none)
    (hp : lookupFlag args "--port" = none)
    (he : lookupFlag args "--endpoint" = none) :
    parseArgs args = some ⟨"0.0.0.0", 9000, "/logs"⟩ := by
  unfold parseArgs
  rw [hp, hh, he]
  rfl

/-- C8 witness: with no flags at all, the defaults are produced. -/
theorem c8_witness : parseArgs [] = some ⟨"0.0.0.0", 9000, "/logs"⟩ :=
  c8_cli_defaults [] rfl rfl rfl

/-- C9: a POST to the endpoint whose Content-Length header is not a valid
decimal integer makes `int()` raise an uncaught ValueError before any
body byte is read: no bytes are appended to the file and the handler
sends neither a 204 nor a 404. -/
theorem c9_invalid_content_length_raises (endpoint : String)
    (writeOk : Bool) (req : Request) (file : List Byte) (v : String)
    (hpath : req.path = endpoint) (hv : req.contentLength = some v)
    (hbad : pyInt? v = none) :
    doPOST endpoint writeOk req file = .error (.valueError, file) :=
  doPOST_of_badLen writeOk file hpath (by rw [hv]; exact hbad)

/-- C9 witness: `Content-Length: abc` raises and the file keeps exactly
its previous contents. -/
theorem c9_witness :
    doPOST "/logs" true ⟨"/logs", some "abc", [104, 105]⟩ [55] =
      .error (.valueError, [55]) :=
  c9_invalid_content_length_raises "/logs" true
    ⟨"/logs", some "abc", [104, 105]⟩ [55] "abc" rfl rfl (by decide)

/-- C10: endpoint matching is exact string equality on the raw request
target — any target not character-for-character equal to the endpoint is
answered 404 with no write; in particular, with endpoint `/logs`, the
targets `/logs/` and `/logs?x=1` are rejected and the file untouched. -/
theorem c10_exact_target_equality (endpoint : String) (writeOk : Bool)
    (req : Request) (file : List Byte) (h : req.path ≠ endpoint) :
    doPOST endpoint writeOk req file = .ok (⟨404, []⟩, file) ∧
    doPOST "/logs" true ⟨"/logs/", some "1", [120]⟩ [104, NL] =
      .ok (⟨404, []⟩, [104, NL]) ∧
    doPOST "/logs" true ⟨"/logs?x=1", some "1", [120]⟩ [104, NL] =
      .ok (⟨404, []⟩, [104, NL]) :=
  ⟨doPOST_of_ne writeOk file h, rfl, rfl⟩

/-- C10 witness: a target differing from the endpoint, and the trailing
slash and query-string variants, all get 404 with the file unchanged. -/
theorem c10_witness :
    doPOST "/logs" false ⟨"/metrics", none, []⟩ [1] =
      .ok (⟨404, []⟩, [1]) ∧
    doPOST "/logs" true ⟨"/logs/", some "1", [120]⟩ [104, NL] =
      .ok (⟨404, []⟩, [104, NL]) ∧
    doPOST "/logs" true ⟨"/logs?x=1", some "1", [120]⟩ [104, NL] =
      .ok (⟨404, []⟩, [104, NL]) :=
  c10_exact_target_equality "/logs" false ⟨"/metrics", none, []⟩ [1]
    (by decide)

end LogForwarder
